import Mathlib

/-!
# Shallow embedding of the z-score anomaly-detection core

This file embeds, in Lean, the class `AnomalyDetectionZscore` from
`helper.py` and the per-sensor dispatch logic of the two analytics
endpoints in `app_fastapi.py` of the IIoT HTTP REST-API repository.

Modelling conventions:

* Python floats are modelled as exact rationals (`ℚ`).  The Python
  built-in `round(x, n)` is modelled as decimal round-half-to-even
  (`pyRound`).
* `math.sqrt` / the square root inside `statistics.stdev` is modelled by
  `ratSqrt`, which is the exact square root whenever its argument is the
  square of a rational (which covers every concrete square root evaluated
  in this development) and a default value otherwise.
* Window sizes are natural numbers (they are sizes).
* The module `helper.py` never defines a module-level name `logger`
  (only `self._logger` exists), so every line that executes
  `logger.error(...)` raises `NameError` at run time.  Consequently the
  threshold setter raises on a zero argument, and every exception caught
  by the `try` blocks of `calculate_anomaly_ratio` / `check_if_anomaly`
  is turned into a `NameError` raised from inside the handler.  Methods
  therefore return a pair: the state after the call (mutations made
  before the raise persist on the Python object) together with an
  optional surfaced exception.
-/

/-- The only exception that can surface from the embedded methods: every
failure path goes through `logger.error(...)` with the unbound name
`logger`, which raises `NameError`. -/
inductive PyErr
  | nameError
  deriving DecidableEq, Repr

/-- Decimal round-half-to-even of a rational to an integer, the
idealisation of the Python built-in `round`. -/
def roundHalfEven (q : ℚ) : ℤ :=
  if q - ⌊q⌋ < 1/2 then ⌊q⌋
  else if 1/2 < q - ⌊q⌋ then ⌊q⌋ + 1
  else if 2 ∣ ⌊q⌋ then ⌊q⌋ else ⌊q⌋ + 1

/-- The Python built-in `round(q, n)`: round to `n` decimal digits,
ties to even. -/
def pyRound (n : ℕ) (q : ℚ) : ℚ := (roundHalfEven (q * 10 ^ n) : ℚ) / 10 ^ n

/-- Arithmetic mean, as computed by `statistics.mean` (the Python
function raises on an empty list; callers in this file guard emptiness
before using it). -/
def mean (xs : List ℚ) : ℚ := xs.sum / (xs.length : ℚ)

/-- Sample variance with Bessel correction, the square of
`statistics.stdev` (the Python function raises on fewer than two data
points; callers guard this before using it). -/
def sampleVar (xs : List ℚ) : ℚ :=
  (xs.map (fun x => (x - mean xs) ^ 2)).sum / ((xs.length - 1 : ℕ) : ℚ)

/-- Exact square root of a rational that is the square of a rational;
`0` on other inputs.  Every square root this development evaluates
concretely is exact, so the default branch never influences a result. -/
def ratSqrt (q : ℚ) : ℚ :=
  if 0 ≤ q ∧ Nat.sqrt q.num.toNat ^ 2 = q.num.toNat ∧ Nat.sqrt q.den ^ 2 = q.den then
    (Nat.sqrt q.num.toNat : ℚ) / (Nat.sqrt q.den : ℚ)
  else 0

/-- `statistics.stdev`: square root of the sample variance. -/
def stdev (xs : List ℚ) : ℚ := ratSqrt (sampleVar xs)

/-- State of one `AnomalyDetectionZscore` instance (`helper.py`).  The
constructor argument `logger` is not part of the state: the class stores
it but never reads it back. -/
structure AnomalyDetectionZscore where
  model_data : List ℚ
  model_size : ℕ
  anomaly_list : List ℕ
  anomaly_list_size : ℕ
  anomaly_ratio : ℚ
  anomaly : ℕ
  model_avg : ℚ
  model_std_dev : ℚ
  z_score : ℚ
  z_score_thresh : ℚ
  name : String
  deriving DecidableEq, Repr

namespace AnomalyDetectionZscore

/-- `__init__`: fresh detector with empty windows and zeroed statistics. -/
def init (name : String) (model_size anomaly_list_size : ℕ) :
    AnomalyDetectionZscore where
  model_data := []
  model_size := model_size
  anomaly_list := []
  anomaly_list_size := anomaly_list_size
  anomaly_ratio := 0
  anomaly := 0
  model_avg := 0
  model_std_dev := 0
  z_score := 0
  z_score_thresh := 0
  name := name

/-- The `z_score_thresh` property setter.  On a zero argument the code
executes `logger.error(...)`, and since `logger` is unbound in
`helper.py` this raises `NameError` before the default `2.0` is stored;
every nonzero argument is stored verbatim. -/
def set_z_score_thresh (d : AnomalyDetectionZscore) (z_score_threshold : ℚ) :
    AnomalyDetectionZscore × Option PyErr :=
  if z_score_threshold = 0 then
    (d, some .nameError)
  else
    ({ d with z_score_thresh := z_score_threshold }, none)

/-- `reset_algorithm`: clear both windows and all derived statistics;
`model_size`, `anomaly_list_size`, `z_score_thresh` and `name` are left
untouched. -/
def reset_algorithm (d : AnomalyDetectionZscore) : AnomalyDetectionZscore :=
  { d with
    model_data := []
    anomaly_list := []
    anomaly_ratio := 0
    anomaly := 0
    model_avg := 0
    model_std_dev := 0
    z_score := 0 }

/-- `is_model_complete`: strict equality of the window length with the
target size. -/
def is_model_complete (d : AnomalyDetectionZscore) : Bool :=
  d.model_data.length == d.model_size

/-- `calculate_anomaly_ratio`.  When the model is complete: below the
target size the current flag is appended without recomputing the ratio;
at the target size the oldest flag is popped, the current flag appended
and the ratio recomputed.  `list.pop(0)` on an empty list raises
`IndexError`, and a zero `anomaly_list_size` raises `ZeroDivisionError`
after the pop and append have mutated the list; both are caught by the
`except` block whose `logger.error` raises `NameError`. -/
def calculate_anomaly_ratio (d : AnomalyDetectionZscore) :
    AnomalyDetectionZscore × Option PyErr :=
  if d.is_model_complete then
    if d.anomaly_list.length < d.anomaly_list_size then
      ({ d with anomaly_list := d.anomaly_list ++ [d.anomaly] }, none)
    else
      match d.anomaly_list with
      | [] => (d, some .nameError)
      | _ :: rest =>
        let l := rest ++ [d.anomaly]
        if d.anomaly_list_size = 0 then
          ({ d with anomaly_list := l }, some .nameError)
        else
          ({ d with
              anomaly_list := l
              anomaly_ratio := pyRound 3 ((l.sum : ℚ) / (d.anomaly_list_size : ℚ)) },
            none)
  else (d, none)

/-- `check_if_anomaly`.  While the model is incomplete the value is
appended to the window.  Once complete, the statistics are recomputed
from the window; `statistics.mean` raises on an empty window and
`statistics.stdev` raises on fewer than two points (caught by the
`except` block whose `logger.error` raises `NameError`; note the mean
has already been stored in the second case).  A zero standard deviation
is replaced by `0.001`.  A z-score beyond the threshold marks an anomaly
and leaves the window untouched; otherwise the oldest window entry is
popped (the window is provably nonempty in that branch) and the value
appended. -/
def check_if_anomaly (d : AnomalyDetectionZscore) (value : ℚ) :
    AnomalyDetectionZscore × Option PyErr :=
  if d.is_model_complete then
    if d.model_data.length = 0 then
      (d, some .nameError)
    else
      let avg := pyRound 3 |mean d.model_data|
      let d1 := { d with model_avg := avg }
      if d.model_data.length < 2 then
        (d1, some .nameError)
      else
        let sd0 := |stdev d.model_data|
        let sd := if sd0 = 0 then (0.001 : ℚ) else sd0
        let z := pyRound 3 ((|value| - avg) / sd)
        let d2 := { d1 with model_std_dev := sd, z_score := z }
        if |z| > d.z_score_thresh then
          ({ d2 with anomaly := 1 }, none)
        else
          ({ d2 with model_data := d2.model_data.tail ++ [value], anomaly := 0 }, none)
  else
    ({ d with model_data := d.model_data ++ [value] }, none)

end AnomalyDetectionZscore

/-! ## Dispatch logic of the analytics endpoints (`app_fastapi.py`)

Both analytics branches run the same three statements on the detector
registered for the sensor name: write the process-wide threshold through
the property setter, call `check_if_anomaly`, call
`calculate_anomaly_ratio`.  The endpoints hold no `try` around these
calls (the `try` blocks only wrap field extraction), so an exception
raised by any of the three aborts the handler before a record is written
to InfluxDB.  The registry lookup is modelled by passing the detector
registered for the event's sensor name; detectors for distinct names are
independent. -/

/-- The three detector calls shared by both analytics branches, with the
first surfaced exception (if any) and the detector state left behind. -/
def detector_pipeline (det : AnomalyDetectionZscore) (globalThresh v : ℚ) :
    AnomalyDetectionZscore × Option PyErr :=
  match det.set_z_score_thresh globalThresh with
  | (d1, some e) => (d1, some e)
  | (d1, none) =>
    match d1.check_if_anomaly v with
    | (d2, some e) => (d2, some e)
    | (d2, none) => d2.calculate_anomaly_ratio

/-- Record written by the `/generic-sensor` endpoint: either a
`SingleSensorAnalytics` point with analytics fields or a plain
`GenericSensor` point carrying only the value. -/
inductive SensorPoint
  | analytics (line machine sensor : String) (value : ℚ) (anomaly : ℕ)
      (ratio avg zscore thresh : ℚ)
  | raw (line machine sensor : String) (value : ℚ)
  deriving DecidableEq, Repr

/-- Record written by the `/vibration-sensor` endpoint (`VibSensor`). -/
structure VibPoint where
  line : String
  machine : String
  sensor : String
  rms_x : ℚ
  rms_y : ℚ
  rms_z : ℚ
  rms_total : ℚ
  anomaly : ℕ
  ratio : ℚ
  avg : ℚ
  zscore : ℚ
  thresh : ℚ
  deriving DecidableEq, Repr

/-- `/generic-sensor` handler after validation: a sensor registered for
analytics runs the detector pipeline and, when no exception surfaces,
emits an analytics point; any other sensor emits a raw point carrying
only the (rounded) value, with its detector never touched. -/
def sensor_data (genericSet : List String) (det : AnomalyDetectionZscore)
    (globalThresh : ℚ) (line machine sensor_name : String) (sensor_value : ℚ) :
    AnomalyDetectionZscore × Option SensorPoint :=
  if sensor_name ∈ genericSet then
    match detector_pipeline det globalThresh sensor_value with
    | (d, some _) => (d, none)
    | (d, none) =>
      (d, some (.analytics line machine sensor_name (pyRound 4 sensor_value)
        d.anomaly (pyRound 4 d.anomaly_ratio) (pyRound 4 d.model_avg)
        (pyRound 4 d.z_score) (pyRound 4 d.z_score_thresh)))
  else
    (det, some (.raw line machine sensor_name (pyRound 4 sensor_value)))

/-- `/vibration-sensor` handler after validation: a sensor registered for
analytics has the total RMS of its three axes computed and fed through
the detector pipeline, emitting a `VibSensor` point when no exception
surfaces; any other sensor emits nothing at all. -/
def vibration_sensor_data (vibSet : List String) (det : AnomalyDetectionZscore)
    (globalThresh : ℚ) (line machine sensor_name : String) (x y z : ℚ) :
    AnomalyDetectionZscore × Option VibPoint :=
  if sensor_name ∈ vibSet then
    let vib_total_rms := pyRound 5 (ratSqrt (x ^ 2 + y ^ 2 + z ^ 2))
    match detector_pipeline det globalThresh vib_total_rms with
    | (d, some _) => (d, none)
    | (d, none) =>
      (d, some { line := line, machine := machine, sensor := sensor_name
                 rms_x := pyRound 4 x, rms_y := pyRound 4 y, rms_z := pyRound 4 z
                 rms_total := pyRound 4 vib_total_rms
                 anomaly := d.anomaly
                 ratio := pyRound 4 d.anomaly_ratio
                 avg := pyRound 4 d.model_avg
                 zscore := pyRound 4 d.z_score
                 thresh := pyRound 4 d.z_score_thresh })
  else (det, none)

/-- One call made against a detector: an evaluation of a value or an
anomaly-ratio update. -/
inductive DetectorEvent
  | eval (v : ℚ)
  | ratio
  deriving DecidableEq, Repr

/-- State left on the detector by one call (partial mutations made
before a surfaced exception persist on the Python object). -/
def runEvent (d : AnomalyDetectionZscore) : DetectorEvent → AnomalyDetectionZscore
  | .eval v => (d.check_if_anomaly v).1
  | .ratio => (d.calculate_anomaly_ratio).1

/-! ## Helper lemmas -/

open AnomalyDetectionZscore

lemma ratSqrt_zero : ratSqrt 0 = 0 := by
  simp [ratSqrt]

lemma ratSqrt_coe_sq (n : ℕ) : ratSqrt ((n : ℚ) ^ 2) = n := by
  have h : ((n : ℚ) ^ 2) = ((n ^ 2 : ℕ) : ℚ) := by push_cast; ring
  rw [h, ratSqrt]
  have h1 : ((n ^ 2 : ℕ) : ℚ).num = ((n ^ 2 : ℕ) : ℤ) := Rat.num_natCast _
  have h2 : ((n ^ 2 : ℕ) : ℚ).den = 1 := Rat.den_natCast _
  rw [h1, h2, Int.toNat_natCast, Nat.sqrt_eq']
  simp

lemma ratSqrt_one : ratSqrt 1 = 1 := by
  have h := ratSqrt_coe_sq 1
  norm_num at h
  exact h

lemma pyRound_zero (n : ℕ) : pyRound n 0 = 0 := by
  simp [pyRound, roundHalfEven]

lemma mean_replicate {n : ℕ} (v : ℚ) (hn : n ≠ 0) : mean (List.replicate n v) = v := by
  have h : (n : ℚ) ≠ 0 := Nat.cast_ne_zero.mpr hn
  simp [mean, List.sum_replicate, nsmul_eq_mul]
  rw [mul_comm, mul_div_assoc, div_self h, mul_one]

lemma sampleVar_replicate {n : ℕ} (v : ℚ) (hn : n ≠ 0) :
    sampleVar (List.replicate n v) = 0 := by
  simp [sampleVar, mean_replicate v hn, List.map_replicate, List.sum_replicate]

lemma stdev_replicate {n : ℕ} (v : ℚ) (hn : n ≠ 0) :
    stdev (List.replicate n v) = 0 := by
  rw [stdev, sampleVar_replicate v hn, ratSqrt_zero]

lemma replicate_tail_append {n : ℕ} (hn : n ≠ 0) (v : ℚ) :
    (List.replicate n v).tail ++ [v] = List.replicate n v := by
  cases n with
  | zero => exact absurd rfl hn
  | succ m =>
    rw [List.replicate_succ, List.tail_cons, ← List.replicate_succ']
    exact (List.replicate_succ v m).symm

/-! ## Claim theorems -/

/-- C1: evaluating the threshold setter at zero on a fresh detector.  The
setter surfaces a `NameError` (the `logger` name is unbound in
`helper.py`), the stored threshold stays at its previous value instead of
the default `2.0`, while a nonzero argument (here `-1.5`) is stored
verbatim without failure. -/
theorem c1_threshold_setter_raises :
    (init "s" 3 2).set_z_score_thresh 0 = (init "s" 3 2, some PyErr.nameError) ∧
    ((init "s" 3 2).set_z_score_thresh 0).1.z_score_thresh ≠ 2 ∧
    (init "s" 3 2).set_z_score_thresh (-1.5) =
      ({ init "s" 3 2 with z_score_thresh := -1.5 }, none) := by
  norm_num [init, set_z_score_thresh]

/-- Scenario A: fresh detector with model size 3, threshold set to 2
through the property setter, anomaly window size 25. -/
def scenA0 : AnomalyDetectionZscore := ((init "g" 3 25).set_z_score_thresh 2).1

/-- Scenario A after evaluating 10, 10, 10 (baseline build). -/
def scenA3 : AnomalyDetectionZscore :=
  (((scenA0.check_if_anomaly 10).1.check_if_anomaly 10).1.check_if_anomaly 10).1

/-- Scenario A after a fourth evaluation of 10. -/
def scenA4 : AnomalyDetectionZscore := (scenA3.check_if_anomaly 10).1

/-- Scenario A after a fifth evaluation of 100. -/
def scenA5 : AnomalyDetectionZscore := (scenA4.check_if_anomaly 100).1

/-- Scenario A state after the baseline build, written out. -/
def scenA3Lit : AnomalyDetectionZscore :=
  { model_data := [10, 10, 10], model_size := 3, anomaly_list := [],
    anomaly_list_size := 25, anomaly_ratio := 0, anomaly := 0, model_avg := 0,
    model_std_dev := 0, z_score := 0, z_score_thresh := 2, name := "g" }

lemma scenA3_eval : scenA3 = scenA3Lit := by
  norm_num [scenA3, scenA0, scenA3Lit, init, set_z_score_thresh, check_if_anomaly,
    is_model_complete]

lemma scenA4_eval : scenA4 =
    { scenA3Lit with
      model_avg := 10
      model_std_dev := 0.001 } := by
  rw [scenA4, scenA3_eval]
  norm_num [scenA3Lit, check_if_anomaly, is_model_complete, mean, sampleVar, stdev,
    ratSqrt_zero, pyRound, roundHalfEven]

lemma scenA5_eval : scenA5 =
    { scenA3Lit with
      model_avg := 10
      model_std_dev := 0.001
      z_score := 90000
      anomaly := 1 } := by
  rw [scenA5, scenA4_eval]
  norm_num [scenA3Lit, check_if_anomaly, is_model_complete, mean, sampleVar, stdev,
    ratSqrt_zero, pyRound, roundHalfEven]

/-- C2 counterexample: after evaluating 10, 10, 10 on a fresh detector
with model size 3 and threshold 2, the detector is ACTIVE but
`model_avg` and `model_std_dev` still read 0, not 10 and 0.001 as the
claim states: the derived statistics are first recomputed on the next
evaluation. -/
theorem c2_stats_lag_counterexample :
    scenA3.is_model_complete = true ∧ scenA3.model_data = [10, 10, 10] ∧
    scenA3.model_avg = 0 ∧ scenA3.model_std_dev = 0 ∧
    ¬(scenA3.model_avg = 10 ∧ scenA3.model_std_dev = 0.001) := by
  rw [scenA3_eval]
  norm_num [scenA3Lit, is_model_complete]

/-- C2 (amended): after evaluating 10, 10, 10 the detector is ACTIVE
with window `[10,10,10]` but all derived statistics still 0; the fourth
evaluation (of 10) computes `model_avg = 10`, clamps `model_std_dev` to
0.001, yields `z_score = 0`, not anomaly, window unchanged; the fifth
evaluation (of 100) yields `z_score = 90000`, anomaly, window unchanged;
no evaluation surfaces an exception. -/
theorem c2_scenario_a :
    scenA3.is_model_complete = true ∧ scenA3.model_data = [10, 10, 10] ∧
    scenA3.model_avg = 0 ∧ scenA3.model_std_dev = 0 ∧ scenA3.z_score = 0 ∧
    (scenA3.check_if_anomaly 10).2 = none ∧
    scenA4.model_avg = 10 ∧ scenA4.model_std_dev = 0.001 ∧
    scenA4.z_score = 0 ∧ scenA4.anomaly = 0 ∧ scenA4.model_data = [10, 10, 10] ∧
    (scenA4.check_if_anomaly 100).2 = none ∧
    scenA5.z_score = 90000 ∧ scenA5.anomaly = 1 ∧
    scenA5.model_data = [10, 10, 10] := by
  rw [scenA3_eval, scenA4_eval, scenA5_eval]
  norm_num [scenA3Lit, is_model_complete, check_if_anomaly, mean, sampleVar,
    stdev, ratSqrt_zero, pyRound, roundHalfEven]

/-- C7: `reset_algorithm` empties both windows and zeroes the derived
statistics while preserving `model_size`, `anomaly_list_size`,
`z_score_thresh` and `name`. -/
theorem c7_reset_frame (d : AnomalyDetectionZscore) :
    d.reset_algorithm =
      { model_data := []
        model_size := d.model_size
        anomaly_list := []
        anomaly_list_size := d.anomaly_list_size
        anomaly_ratio := 0
        anomaly := 0
        model_avg := 0
        model_std_dev := 0
        z_score := 0
        z_score_thresh := d.z_score_thresh
        name := d.name } := rfl

/-- C10: while the model window is still short of its target size,
`calculate_anomaly_ratio` is a complete no-op and surfaces nothing. -/
theorem c10_building_ratio_noop (d : AnomalyDetectionZscore)
    (h : d.model_data.length < d.model_size) :
    d.calculate_anomaly_ratio = (d, none) := by
  simp [calculate_anomaly_ratio, is_model_complete, Nat.ne_of_lt h]

/-- C10 witness: the no-op on a fresh detector of model size 3. -/
theorem c10_building_ratio_noop_witness :
    (init "s" 3 2).model_data.length < (init "s" 3 2).model_size ∧
    (init "s" 3 2).calculate_anomaly_ratio = (init "s" 3 2, none) :=
  ⟨by decide, c10_building_ratio_noop (init "s" 3 2) (by decide)⟩

/-- A classification outcome (the `anomaly` flag as `check_if_anomaly`
leaves it) followed by its `calculate_anomaly_ratio` call. -/
def ratioStep (flag : ℕ) (d : AnomalyDetectionZscore) : AnomalyDetectionZscore :=
  ({ d with anomaly := flag }.calculate_anomaly_ratio).1

/-- Scenario C start: ACTIVE detector (window full at size 1), anomaly
window size 2, empty anomaly window, ratio 0. -/
def scenC0 : AnomalyDetectionZscore := { init "s" 1 2 with model_data := [10] }

/-- C3 counterexample: on an ACTIVE detector with anomaly window size 2,
after an anomaly classification and a not-anomaly classification (each
followed by its ratio update) the anomaly window is `[1, 0]` but the
ratio still reads 0, not 0.5: the append branch below the target size
never recomputes it. -/
theorem c3_ratio_not_recomputed_counterexample :
    (ratioStep 0 (ratioStep 1 scenC0)).anomaly_list = [1, 0] ∧
    (ratioStep 0 (ratioStep 1 scenC0)).anomaly_ratio = 0 ∧
    (ratioStep 0 (ratioStep 1 scenC0)).anomaly_ratio ≠ 0.5 := by
  norm_num [ratioStep, scenC0, init, calculate_anomaly_ratio, is_model_complete]

/-- C3 (amended): on an ACTIVE detector with anomaly window size 2 and
empty anomaly window, the first (anomaly) classification plus ratio
update gives window `[1]` with the ratio unchanged at 0; the second
(not-anomaly) one gives window `[1, 0]` with the ratio still unchanged
at 0; the ratio is first recomputed on the third call, which evicts the
oldest flag first (a third anomaly classification yields window `[0, 1]`
and ratio 0.5). -/
theorem c3_ratio_lag_amended (d : AnomalyDetectionZscore)
    (hc : d.is_model_complete = true) (h0 : d.anomaly_list = [])
    (hs : d.anomaly_list_size = 2) (hr : d.anomaly_ratio = 0) :
    (ratioStep 1 d).anomaly_list = [1] ∧ (ratioStep 1 d).anomaly_ratio = 0 ∧
    (ratioStep 0 (ratioStep 1 d)).anomaly_list = [1, 0] ∧
    (ratioStep 0 (ratioStep 1 d)).anomaly_ratio = 0 ∧
    (ratioStep 1 (ratioStep 0 (ratioStep 1 d))).anomaly_list = [0, 1] ∧
    (ratioStep 1 (ratioStep 0 (ratioStep 1 d))).anomaly_ratio = 0.5 := by
  simp only [is_model_complete] at hc
  norm_num [ratioStep, calculate_anomaly_ratio, is_model_complete, h0, hs, hr, hc,
    pyRound, roundHalfEven]

/-- C3 witness: the amended scenario on a concrete ACTIVE detector. -/
theorem c3_ratio_lag_amended_witness :
    (scenC0.is_model_complete = true ∧ scenC0.anomaly_list = [] ∧
      scenC0.anomaly_list_size = 2 ∧ scenC0.anomaly_ratio = 0) ∧
    ((ratioStep 1 scenC0).anomaly_list = [1] ∧ (ratioStep 1 scenC0).anomaly_ratio = 0 ∧
      (ratioStep 0 (ratioStep 1 scenC0)).anomaly_list = [1, 0] ∧
      (ratioStep 0 (ratioStep 1 scenC0)).anomaly_ratio = 0 ∧
      (ratioStep 1 (ratioStep 0 (ratioStep 1 scenC0))).anomaly_list = [0, 1] ∧
      (ratioStep 1 (ratioStep 0 (ratioStep 1 scenC0))).anomaly_ratio = 0.5) :=
  ⟨⟨rfl, rfl, rfl, rfl⟩, c3_ratio_lag_amended scenC0 rfl rfl rfl rfl⟩

/-- C4 (amended): on an ACTIVE detector whose model size is at least 2,
`check_if_anomaly` surfaces nothing and computes exactly the statistics
the claim states: the rounded absolute mean, the absolute standard
deviation with 0 clamped to 0.001, the rounded z-score; beyond the
threshold it marks an anomaly and leaves the window untouched, otherwise
it clears the flag and slides the window, holding its length constant.
(The size bound is forced by the counterexample: with a window of fewer
than two points `statistics.stdev` raises.) -/
theorem c4_active_evaluate_amended (d : AnomalyDetectionZscore) (v : ℚ)
    (hlen : d.model_data.length = d.model_size) (h2 : 2 ≤ d.model_size) :
    (d.check_if_anomaly v).2 = none ∧
    (d.check_if_anomaly v).1.model_avg = pyRound 3 |mean d.model_data| ∧
    (d.check_if_anomaly v).1.model_std_dev =
      (if |stdev d.model_data| = 0 then (0.001 : ℚ) else |stdev d.model_data|) ∧
    (d.check_if_anomaly v).1.z_score =
      pyRound 3 ((|v| - pyRound 3 |mean d.model_data|) /
        (if |stdev d.model_data| = 0 then (0.001 : ℚ) else |stdev d.model_data|)) ∧
    (if |(d.check_if_anomaly v).1.z_score| > d.z_score_thresh then
        (d.check_if_anomaly v).1.anomaly = 1 ∧
        (d.check_if_anomaly v).1.model_data = d.model_data
      else
        (d.check_if_anomaly v).1.anomaly = 0 ∧
        (d.check_if_anomaly v).1.model_data = d.model_data.tail ++ [v] ∧
        (d.check_if_anomaly v).1.model_data.length = d.model_data.length) := by
  have hc : d.is_model_complete = true := by
    simp [is_model_complete, hlen]
  have h0 : ¬ d.model_data.length = 0 := by omega
  have h1 : ¬ d.model_data.length < 2 := by omega
  simp only [check_if_anomaly, hc, if_true, h0, if_false, h1]
  split_ifs <;> simp_all [List.length_tail] <;> try omega

/-- ACTIVE detector with the degenerate model size 1, reached by one
building evaluation from a fresh size-1 detector. -/
def dC4 : AnomalyDetectionZscore := ((init "s" 1 2).check_if_anomaly 10).1

/-- C4 counterexample: on an ACTIVE detector of model size 1 the claim
fails: the evaluation stores the mean but then surfaces a `NameError`
(`statistics.stdev` needs two points and the exception handler trips
over the unbound `logger`), so `model_std_dev` stays 0 instead of being
clamped to 0.001 and no classification is performed. -/
theorem c4_single_point_window_counterexample :
    dC4.model_data.length = dC4.model_size ∧
    (dC4.check_if_anomaly 5).2 = some PyErr.nameError ∧
    (dC4.check_if_anomaly 5).1.model_avg = 10 ∧
    (dC4.check_if_anomaly 5).1.model_std_dev = 0 ∧
    (dC4.check_if_anomaly 5).1.anomaly = 0 ∧
    (dC4.check_if_anomaly 5).1.model_std_dev ≠ 0.001 := by
  norm_num [dC4, init, check_if_anomaly, is_model_complete, mean, pyRound, roundHalfEven]

/-- ACTIVE size-3 detector with window `[1, 2, 3]` and threshold 0. -/
def dC4W : AnomalyDetectionZscore := { init "s" 3 2 with model_data := [1, 2, 3] }

/-- C4 witness: the amended evaluation contract at a concrete ACTIVE
state and value. -/
theorem c4_active_evaluate_amended_witness :
    (dC4W.model_data.length = dC4W.model_size ∧ 2 ≤ dC4W.model_size) ∧
    ((dC4W.check_if_anomaly 1000).2 = none ∧
      (dC4W.check_if_anomaly 1000).1.model_avg = pyRound 3 |mean dC4W.model_data| ∧
      (dC4W.check_if_anomaly 1000).1.model_std_dev =
        (if |stdev dC4W.model_data| = 0 then (0.001 : ℚ) else |stdev dC4W.model_data|) ∧
      (dC4W.check_if_anomaly 1000).1.z_score =
        pyRound 3 ((|(1000 : ℚ)| - pyRound 3 |mean dC4W.model_data|) /
          (if |stdev dC4W.model_data| = 0 then (0.001 : ℚ) else |stdev dC4W.model_data|)) ∧
      (if |(dC4W.check_if_anomaly 1000).1.z_score| > dC4W.z_score_thresh then
          (dC4W.check_if_anomaly 1000).1.anomaly = 1 ∧
          (dC4W.check_if_anomaly 1000).1.model_data = dC4W.model_data
        else
          (dC4W.check_if_anomaly 1000).1.anomaly = 0 ∧
          (dC4W.check_if_anomaly 1000).1.model_data = dC4W.model_data.tail ++ [(1000 : ℚ)] ∧
          (dC4W.check_if_anomaly 1000).1.model_data.length = dC4W.model_data.length)) :=
  ⟨⟨by decide, by decide⟩, c4_active_evaluate_amended dC4W 1000 (by decide) (by decide)⟩

lemma runEvent_preserves (d : AnomalyDetectionZscore) (e : DetectorEvent) :
    (runEvent d e).model_size = d.model_size ∧
    (runEvent d e).anomaly_list_size = d.anomaly_list_size ∧
    (d.model_data.length ≤ d.model_size →
      (runEvent d e).model_data.length ≤ d.model_size) ∧
    (d.anomaly_list.length ≤ d.anomaly_list_size →
      (runEvent d e).anomaly_list.length ≤ d.anomaly_list_size) := by
  cases e with
  | eval v =>
    simp only [runEvent, check_if_anomaly]
    split_ifs <;> simp_all [is_model_complete, List.length_tail] <;> omega
  | ratio =>
    rcases hal : d.anomaly_list with _ | ⟨a, rest⟩ <;>
      simp only [runEvent, calculate_anomaly_ratio, hal] <;>
      split_ifs <;> simp_all [is_model_complete] <;> omega

lemma foldl_runEvent_inv (events : List DetectorEvent) (d : AnomalyDetectionZscore)
    (h1 : d.model_data.length ≤ d.model_size)
    (h2 : d.anomaly_list.length ≤ d.anomaly_list_size) :
    (events.foldl runEvent d).model_size = d.model_size ∧
    (events.foldl runEvent d).anomaly_list_size = d.anomaly_list_size ∧
    (events.foldl runEvent d).model_data.length ≤ d.model_size ∧
    (events.foldl runEvent d).anomaly_list.length ≤ d.anomaly_list_size := by
  induction events generalizing d with
  | nil => exact ⟨rfl, rfl, h1, h2⟩
  | cons e es ih =>
    obtain ⟨hs1, hs2, hm, ha⟩ := runEvent_preserves d e
    obtain ⟨t1, t2, t3, t4⟩ :=
      ih (runEvent d e) (hs1.symm ▸ hm h1) (hs2.symm ▸ ha h2)
    exact ⟨t1.trans hs1, t2.trans hs2, hs1 ▸ t3, hs2 ▸ t4⟩

/-- C5: along every sequence of `evaluate` and `updateAnomalyRatio`
calls from a fresh detector, both windows stay within their target
sizes.  Every prefix of a call sequence is itself a call sequence, so
the bound holds at every observation point. -/
theorem c5_bounded_windows (name : String) (msize asize : ℕ)
    (events : List DetectorEvent) :
    (events.foldl runEvent (init name msize asize)).model_data.length ≤ msize ∧
    (events.foldl runEvent (init name msize asize)).anomaly_list.length ≤ asize := by
  have h := foldl_runEvent_inv events (init name msize asize)
    (by simp [init]) (by simp [init])
  exact ⟨h.2.2.1, h.2.2.2⟩

/-- C6: a single-value sensor event whose name is not registered for
analytics emits a raw record carrying only the rounded value with the
detector untouched, while a vibration event whose name is not registered
emits nothing at all. -/
theorem c6_routing_asymmetry :
    (∀ (genericSet : List String) (det : AnomalyDetectionZscore) (globalThresh : ℚ)
        (line machine sname : String) (value : ℚ), sname ∉ genericSet →
        sensor_data genericSet det globalThresh line machine sname value =
          (det, some (.raw line machine sname (pyRound 4 value)))) ∧
    (∀ (vibSet : List String) (det : AnomalyDetectionZscore) (globalThresh : ℚ)
        (line machine sname : String) (x y z : ℚ), sname ∉ vibSet →
        vibration_sensor_data vibSet det globalThresh line machine sname x y z =
          (det, none)) := by
  refine ⟨fun gs det t l m n val h => ?_, fun vs det t l m n x y z h => ?_⟩ <;>
    simp [sensor_data, vibration_sensor_data, h]

/-- C6 witness: both routing branches at a concrete unregistered name. -/
theorem c6_routing_asymmetry_witness :
    ("b" ∉ (["a"] : List String)) ∧
    sensor_data ["a"] (init "b" 3 2) 2 "l" "m" "b" 7 =
      (init "b" 3 2, some (.raw "l" "m" "b" (pyRound 4 7))) ∧
    vibration_sensor_data ["a"] (init "b" 3 2) 2 "l" "m" "b" 3 4 0 =
      (init "b" 3 2, none) :=
  ⟨by decide, c6_routing_asymmetry.1 ["a"] (init "b" 3 2) 2 "l" "m" "b" 7 (by decide),
    c6_routing_asymmetry.2 ["a"] (init "b" 3 2) 2 "l" "m" "b" 3 4 0 (by decide)⟩

/-- ACTIVE size-3 detector with window `[1, 2, 3]` (spread 1 ≠ 0) and
threshold 2. -/
def c8state : AnomalyDetectionZscore :=
  { init "s" 3 2 with model_data := [1, 2, 3], z_score_thresh := 2 }

/-- The state `c8state` reaches after evaluating the outlier 1000. -/
def c8fix : AnomalyDetectionZscore :=
  { c8state with
    model_avg := 2
    model_std_dev := 1
    z_score := 998
    anomaly := 1 }

/-- C8 counterexample: an ACTIVE detector with nonzero baseline spread
fed the outlier 1000 repeatedly: the z-score is 998 (never 0), the point
is classified anomalous, and the state is a fixpoint of further
evaluations of 1000, so repetition never changes the verdict. -/
theorem c8_outlier_counterexample :
    stdev c8state.model_data = 1 ∧
    c8state.model_data.length = c8state.model_size ∧
    (c8state.check_if_anomaly 1000).2 = none ∧
    (c8state.check_if_anomaly 1000).1.z_score = 998 ∧
    (c8state.check_if_anomaly 1000).1.z_score ≠ 0 ∧
    (c8state.check_if_anomaly 1000).1.anomaly = 1 ∧
    ((c8state.check_if_anomaly 1000).1.check_if_anomaly 1000).1 =
      (c8state.check_if_anomaly 1000).1 := by
  have hsv : sampleVar [(1 : ℚ), 2, 3] = 1 := by norm_num [sampleVar, mean]
  have hst : stdev [(1 : ℚ), 2, 3] = 1 := by rw [stdev, hsv, ratSqrt_one]
  have h1 : c8state.check_if_anomaly 1000 = (c8fix, none) := by
    norm_num [c8state, c8fix, init, check_if_anomaly, is_model_complete, mean, hst,
      pyRound, roundHalfEven]
  have hmd : c8state.model_data = [(1 : ℚ), 2, 3] := rfl
  rw [hmd, hst, h1]
  norm_num [c8fix, c8state, init]
  norm_num [check_if_anomaly, is_model_complete, mean, hst, pyRound, roundHalfEven]

/-- C8 (amended): once the window is saturated with a single value `v`
representable to 3 decimals (the steady state repeated feeding of an
admitted value reaches), evaluating `v` again, with a nonnegative
threshold, yields a zero z-score, a not-anomaly verdict, and leaves the
window (and the fields the next evaluation reads) unchanged, so the
verdict persists under repetition.  A value whose first evaluation is
anomalous is never admitted, so repetition keeps its nonzero z-score
instead (see the counterexample). -/
theorem c8_saturated_window_amended (d : AnomalyDetectionZscore) (v : ℚ)
    (hd : d.model_data = List.replicate d.model_size v)
    (h2 : 2 ≤ d.model_size)
    (hv : pyRound 3 |v| = |v|)
    (ht : 0 ≤ d.z_score_thresh) :
    (d.check_if_anomaly v).2 = none ∧
    (d.check_if_anomaly v).1.z_score = 0 ∧
    (d.check_if_anomaly v).1.anomaly = 0 ∧
    (d.check_if_anomaly v).1.model_data = d.model_data ∧
    (d.check_if_anomaly v).1.model_size = d.model_size ∧
    (d.check_if_anomaly v).1.z_score_thresh = d.z_score_thresh := by
  have hn : d.model_size ≠ 0 := by omega
  have hlen : d.model_data.length = d.model_size := by rw [hd]; simp
  have hc : d.is_model_complete = true := by simp [is_model_complete, hlen]
  have h0 : ¬ d.model_data.length = 0 := by omega
  have h1 : ¬ d.model_data.length < 2 := by omega
  have hmean : mean d.model_data = v := by rw [hd]; exact mean_replicate v hn
  have hsd : stdev d.model_data = 0 := by rw [hd]; exact stdev_replicate v hn
  have htail : d.model_data.tail ++ [v] = d.model_data := by
    rw [hd]; exact replicate_tail_append hn v
  have hnotgt : ¬ ((0 : ℚ)) > d.z_score_thresh := not_lt.mpr ht
  simp only [check_if_anomaly, hc, if_true, h0, h1, if_false, hsd, hmean, hv]
  norm_num [pyRound_zero, htail, hnotgt]

/-- ACTIVE size-3 detector saturated with the value 10, threshold 2. -/
def c8wit : AnomalyDetectionZscore :=
  { init "s" 3 2 with model_data := [10, 10, 10], z_score_thresh := 2 }

/-- C8 witness: the amended steady-state property at a concrete
saturated detector. -/
theorem c8_saturated_window_amended_witness :
    (c8wit.model_data = List.replicate c8wit.model_size 10 ∧ 2 ≤ c8wit.model_size ∧
      pyRound 3 |(10 : ℚ)| = |(10 : ℚ)| ∧ 0 ≤ c8wit.z_score_thresh) ∧
    ((c8wit.check_if_anomaly 10).2 = none ∧
      (c8wit.check_if_anomaly 10).1.z_score = 0 ∧
      (c8wit.check_if_anomaly 10).1.anomaly = 0 ∧
      (c8wit.check_if_anomaly 10).1.model_data = c8wit.model_data ∧
      (c8wit.check_if_anomaly 10).1.model_size = c8wit.model_size ∧
      (c8wit.check_if_anomaly 10).1.z_score_thresh = c8wit.z_score_thresh) :=
  ⟨⟨rfl, by decide, by norm_num [pyRound, roundHalfEven], by norm_num [c8wit, init]⟩,
    c8_saturated_window_amended c8wit 10 rfl (by decide)
      (by norm_num [pyRound, roundHalfEven]) (by norm_num [c8wit, init])⟩

/-- C9: a vibration event routed to analytics feeds exactly the rounded
root of the sum of the squared axes into the detector pipeline, and that
scalar is exactly 5 for the axes 3, 4, 0. -/
theorem c9_vibration_rms :
    (∀ (vibSet : List String) (det : AnomalyDetectionZscore) (globalThresh : ℚ)
        (line machine sname : String) (x y z : ℚ), sname ∈ vibSet →
        (vibration_sensor_data vibSet det globalThresh line machine sname x y z).1 =
          (detector_pipeline det globalThresh
            (pyRound 5 (ratSqrt (x ^ 2 + y ^ 2 + z ^ 2)))).1) ∧
    pyRound 5 (ratSqrt ((3 : ℚ) ^ 2 + 4 ^ 2 + 0 ^ 2)) = 5 := by
  constructor
  · intro vs det t l m n x y z h
    simp only [vibration_sensor_data, if_pos h]
    rcases hp : detector_pipeline det t (pyRound 5 (ratSqrt (x ^ 2 + y ^ 2 + z ^ 2)))
      with ⟨d, e⟩
    cases e <;> simp [hp]
  · have h : ((3 : ℚ) ^ 2 + 4 ^ 2 + 0 ^ 2) = ((5 : ℕ) : ℚ) ^ 2 := by norm_num
    rw [h, ratSqrt_coe_sq]
    norm_num [pyRound, roundHalfEven]

/-- C9 witness: the routed pipeline feed at a concrete registered
vibration event. -/
theorem c9_vibration_rms_witness :
    ("v" ∈ (["v"] : List String)) ∧
    (vibration_sensor_data ["v"] (init "v" 3 2) 2 "l" "m" "v" 3 4 0).1 =
      (detector_pipeline (init "v" 3 2) 2
        (pyRound 5 (ratSqrt ((3 : ℚ) ^ 2 + 4 ^ 2 + 0 ^ 2)))).1 :=
  ⟨by decide, c9_vibration_rms.1 ["v"] (init "v" 3 2) 2 "l" "m" "v" 3 4 0 (by decide)⟩
